import Mathlib

/-
Verification of the declarative reconciliation logic of two F5 BIG-IP Ansible
modules: `library/_bigip_virtual_server.py` (bigsuds/SOAP based) and
`library/bigip_node.py` (f5-sdk/REST based).

The Python functions are shallowly embedded as pure Lean functions.  Device
interaction is made explicit: each embedded operation takes the relevant
observed device state as an argument and returns the list of *mutating* device
calls it issues (reads are not recorded, matching the spec's notion of a
mutating call).  Python exceptions that escape a function are modelled with
`Except String`; the string is the exception message from the source.

The behaviour of the remote device itself (bigsuds / f5-sdk API client) is an
external collaborator; where its semantics matter they follow section 6 of the
spec: `create` on an existing object, `delete`/`load` on a missing object fail
with an "already exists" / "not found" error, and add/remove list calls attach
or detach the listed members.
-/

set_option autoImplicit false

namespace F5

/-! ## Virtual server module: device calls -/

/-- Mutating SOAP calls issued by `_bigip_virtual_server.py`.  Payloads are
recorded as the lists of member names the source passes (the
`profile_context` wrapper dict carries no further information). -/
inductive VSCall where
  | createVS
  | deleteVS
  | removeProfile (profiles : List String)
  | addProfile (profiles : List String)
  | removePolicy (policies : List String)
  | addPolicy (policies : List String)
  | setVlan (st : String) (vlans : List String)
  deriving DecidableEq, Repr

/-! ## Virtual server module: set_profiles / set_policies (lines 289-362) -/

/-- `to_add_profiles` of `set_profiles`: desired profiles not currently on the
virtual server (source lines 297-300). -/
def to_add_profiles (profiles_list current_profiles : List String) : List String :=
  profiles_list.filter (fun x => !(current_profiles.contains x))

/-- `to_del_profiles` of `set_profiles`: current profiles absent from the
desired list, except the protected default `/Common/tcp`
(source lines 301-304). -/
def to_del_profiles (profiles_list current_profiles : List String) : List String :=
  current_profiles.filter (fun x => !(profiles_list.contains x) && !(x == "/Common/tcp"))

/-- The diff-and-apply body of `set_profiles` (source lines 295-316):
compute both differences, issue `remove_profile` / `add_profile` for the
non-empty ones, and track the updated flag and the device's resulting
profile list (`remove_profile` detaches the listed profiles, `add_profile`
attaches them). -/
def set_profiles_steps (pl device : List String) : Bool × List VSCall × List String :=
  let toAdd := to_add_profiles pl device
  let toDel := to_del_profiles pl device
  let st1 : Bool × List VSCall × List String :=
    if toDel.length > 0 then
      (true, [VSCall.removeProfile toDel], device.filter (fun x => !(toDel.contains x)))
    else (false, [], device)
  if toAdd.length > 0 then
    (true, st1.2.1 ++ [VSCall.addProfile toAdd], st1.2.2 ++ toAdd)
  else st1

/-- `set_profiles` (source lines 289-324).  `profiles_list = none` models the
Python `None` ("do not manage").  After applying the diff the function
re-reads the device's profile list (lines 317-321) and raises
`F5ModuleError` when it is empty.  Returns (updated flag, mutating calls,
profile list after the pass). -/
def set_profiles (profiles_list : Option (List String)) (device : List String) :
    Except String (Bool × List VSCall × List String) :=
  match profiles_list with
  | none => .ok (false, [], device)
  | some pl =>
    let st2 := set_profiles_steps pl device
    if st2.2.2.length == 0 then
      .error "Virtual servers must has at least one profile"
    else .ok st2

/-- `to_add_policies` of `set_policies` (source lines 340-343). -/
def to_add_policies (policies_list current_policies : List String) : List String :=
  policies_list.filter (fun x => !(current_policies.contains x))

/-- `to_del_policies` of `set_policies` (source lines 344-347): plain set
difference, no protected member. -/
def to_del_policies (policies_list current_policies : List String) : List String :=
  current_policies.filter (fun x => !(policies_list.contains x))

/-- `set_policies` (source lines 333-362): same diff shape as `set_profiles`
but without the protected member and without the post-pass re-read.
Returns (updated flag, mutating calls). -/
def set_policies (policies_list : Option (List String)) (device : List String) :
    Bool × List VSCall :=
  match policies_list with
  | none => (false, [])
  | some pl =>
    let toAdd := to_add_policies pl device
    let toDel := to_del_policies pl device
    let st1 : Bool × List VSCall :=
      if toDel.length > 0 then (true, [VSCall.removePolicy toDel]) else (false, [])
    if toAdd.length > 0 then (true, st1.2 ++ [VSCall.addPolicy toAdd]) else st1

/-! ## Node module: the two monitor-expression regexes of bigip_node.py

`Parameters.monitors_list` uses `re.findall(r'/\w+/[^\s}]+', s)` and
`Parameters.monitor_type` / `Parameters.quorum` use
`re.search(r'min\s+(\d+)\s+of', s)`.  Both patterns are backtracking-free
(each quantified class is disjoint from what follows), so they are embedded as
maximal-munch scanners over the character list. -/

/-- Python `\w` on the ASCII names this module handles. -/
def isWordChar (c : Char) : Bool :=
  c.isAlphanum || c == '_'

/-- Python `s.startswith(p)`, on the underlying character lists so that
closed terms reduce inside the kernel. -/
def strStartsWith (s p : String) : Bool :=
  p.data.isPrefixOf s.data

/-- Python `sep.join(l)`. -/
def strJoin (sep : String) (l : List String) : String :=
  String.mk (List.intercalate sep.data (l.map String.data))

/-- Python `needle in hay` substring test. -/
def pySubstr (needle hay : String) : Bool :=
  hay.data.tails.any (fun t => needle.data.isPrefixOf t)

/-- Python `\s`. -/
def isSpaceChar (c : Char) : Bool :=
  c == ' ' || c == '\t' || c == '\n' || c == '\r' || c == '\x0b' || c == '\x0c'

/-- Python `s.strip()`: drop leading and trailing whitespace. -/
def strStrip (s : String) : String :=
  String.mk (((s.data.dropWhile isSpaceChar).reverse.dropWhile isSpaceChar).reverse)

/-- Try to match `/\w+/[^\s}]+` at the head of `l`; on success return the
matched characters and the remainder of the input. -/
def matchMonitorAt (l : List Char) : Option (List Char × List Char) :=
  match l with
  | '/' :: rest =>
    let w := rest.takeWhile isWordChar
    let rest1 := rest.dropWhile isWordChar
    if w.isEmpty then none
    else
      match rest1 with
      | '/' :: rest2 =>
        let t := rest2.takeWhile (fun c => !(isSpaceChar c) && !(c == '\x7d'))
        let rest3 := rest2.dropWhile (fun c => !(isSpaceChar c) && !(c == '\x7d'))
        if t.isEmpty then none
        else some ('/' :: (w ++ '/' :: t), rest3)
      | _ => none
  | _ => none

/-- Worker for `findallMonitors`; `fuel` bounds the number of scanning steps
(each step consumes at least one character, so `l.length` suffices). -/
def findallMonitorsGo : Nat → List Char → List String
  | 0, _ => []
  | _, [] => []
  | Nat.succ n, c :: rest =>
    match matchMonitorAt (c :: rest) with
    | some (m, rest2) => String.mk m :: findallMonitorsGo n rest2
    | none => findallMonitorsGo n rest

/-- `re.findall(r'/\w+/[^\s}]+', s)`: leftmost, non-overlapping matches in
order (source line 328). -/
def findallMonitors (s : String) : List String :=
  findallMonitorsGo s.toList.length s.toList

/-- Try to match `min\s+(\d+)\s+of` at the head of `l`; on success return the
digit group. -/
def matchMinOfAt (l : List Char) : Option (List Char) :=
  match l with
  | 'm' :: 'i' :: 'n' :: rest =>
    let s1 := rest.takeWhile isSpaceChar
    let r1 := rest.dropWhile isSpaceChar
    if s1.isEmpty then none
    else
      let d := r1.takeWhile Char.isDigit
      let r2 := r1.dropWhile Char.isDigit
      if d.isEmpty then none
      else
        let s2 := r2.takeWhile isSpaceChar
        let r3 := r2.dropWhile isSpaceChar
        if s2.isEmpty then none
        else
          match r3 with
          | 'o' :: 'f' :: _ => some d
          | _ => none
  | _ => none

/-- `re.search(r'min\s+(\d+)\s+of', s)`: the digit group of the leftmost
match, if any (`List.tails` enumerates start positions left to right). -/
def searchMinOf (s : String) : Option (List Char) :=
  s.toList.tails.findSome? matchMinOfAt

/-- `re.search(r'min\s+\d+\s+of', s) is not None` (source lines 373-374). -/
def hasMinOf (s : String) : Bool :=
  (searchMinOf s).isSome

/-- Decimal value of the digit group (Python `int` of the matched digits). -/
def digitsToNat (l : List Char) : Nat :=
  l.foldl (fun n c => 10 * n + (c.toNat - '0'.toNat)) 0

/-! ## Virtual server module: local port validation (lines 729-730) -/

/-- The module's local port-range test, `0 > port > 65535`, which in Python is
the chained conjunction `(0 > port) and (port > 65535)` (source line 729). -/
def port_range_check (port : Int) : Bool :=
  (0 > port) && (port > 65535)

/-! ## Node module: Parameters properties (bigip_node.py lines 240-394) -/

/-- `Parameters._fqdn_name` (lines 318-321): qualify a reference with the
partition unless it already starts with the delimiter. -/
def fqdn_name (partition value : String) : String :=
  if strStartsWith value "/" then value else "/" ++ partition ++ "/" ++ value

/-- Python `'%s' % quorum`: an integer prints in decimal, `None` prints as
the string `None`. -/
def quorum_str (q : Option Int) : String :=
  match q with
  | some n => toString n
  | none => "None"

/-- `Parameters.monitors` (lines 333-344): render the monitor list into the
device's expression string using the current `monitor_type` and `quorum`. -/
def render_monitors (partition : String) (monitor_type : Option String)
    (quorum : Option Int) (monitors_list : List String) : String :=
  let ms := monitors_list.map (fqdn_name partition)
  if monitor_type == some "m_of_n" then
    "min " ++ quorum_str quorum ++ " of \x7b " ++ strJoin " " ms ++ " \x7d"
  else
    strStrip (strJoin " and " ms)

/-- `Parameters.monitor_type` (lines 368-382): for a device-read node
(`kind == 'tm:ltm:node:nodestate'`) the type is derived from the expression
string; for any other kind the stored value is returned. -/
def Parameters_monitor_type (kind : Option String) (monitors_val : Option String)
    (stored : Option String) : Option String :=
  if kind == some "tm:ltm:node:nodestate" then
    match monitors_val with
    | none => none
    | some s => if hasMinOf s then some "m_of_n" else some "and_list"
  else stored

/-- `Parameters.quorum` (lines 346-366): the expression string is parsed for
the quorum **only** when `kind == 'tm:ltm:pool:poolstate'` (the pool kind);
for every other kind — including the node kind this module reads — the stored
`_values['quorum']` is returned.  The trailing `int()` conversion cannot fail
here because both sources are already integral. -/
def Parameters_quorum (kind : Option String) (monitors_val : Option String)
    (stored_quorum : Option Int) : Option Int :=
  if kind == some "tm:ltm:pool:poolstate" then
    match monitors_val with
    | none => none
    | some s => (searchMinOf s).map (fun d => (digitsToNat d : Int))
  else stored_quorum

/-- `Parameters.monitors_list` (lines 323-331) on a device-read value: the
stored value is the expression string, and `re.findall` extracts the names. -/
def have_monitors_list (monitors_val : Option String) : List String :=
  match monitors_val with
  | none => []
  | some s => findallMonitors s

/-- `Parameters.monitors_list` on caller input: the stored value is already a
list, so `re.findall` raises `TypeError` and the `except` branch returns the
list unchanged (lines 327-331). -/
def want_monitors_list (monitors_val : Option (List String)) : List String :=
  match monitors_val with
  | none => []
  | some l => l

/-- `monitor_type` of a device-read node: `kind` is `'tm:ltm:node:nodestate'`
and the REST attributes carry no stored `monitor_type`. -/
def have_monitor_type (monitors_val : Option String) : Option String :=
  Parameters_monitor_type (some "tm:ltm:node:nodestate") monitors_val none

/-! ## Node module: desired and observed state -/

/-- The caller's desired state for one node (`self.want`): the `_values` slots
of `Parameters` that the claims touch.  `state` holds `_values['state']`,
which starts as the Ansible lifecycle state and is overwritten by
`_munge_creation_state_for_device` with the device encoding; `session_val`
holds `_values['session']`, unset until munging. -/
structure NWant where
  name : String := "node1"
  partition : String := "Common"
  address : Option String := none
  fqdn : Option String := none
  description : Option String := none
  monitor_type : Option String := none
  quorum : Option Int := none
  monitors : Option (List String) := none
  state : String := "present"
  session_val : Option String := none
  is_offline : Bool := false
  deriving DecidableEq, Repr

/-- The device's observed state for one existing node (`self.have`), read via
`read_current_from_device`; its `kind` is `'tm:ltm:node:nodestate'`.
`quorum_val` is the stored `_values['quorum']`, which a REST node read never
populates (the quorum only exists inside the `monitor` expression string). -/
structure NHave where
  session : String := "user-enabled"
  state : String := "user-up"
  monitors : Option String := none
  description : Option String := none
  quorum_val : Option Int := none
  deriving DecidableEq, Repr

/-- `self.have.quorum`: the node kind never equals the pool kind tested on
line 348, so the expression string is never parsed and the (empty) stored
value is returned. -/
def have_quorum (h : NHave) : Option Int :=
  Parameters_quorum (some "tm:ltm:node:nodestate") h.monitors h.quorum_val

/-- `self.want.monitors` (the rendered expression string), `none` when the
caller did not manage the property. -/
def want_monitors_rendered (w : NWant) : Option String :=
  match w.monitors with
  | none => none
  | some ml => some (render_monitors w.partition w.monitor_type w.quorum ml)

/-- REST payload assembled by `Parameters.api_params` (lines 308-316) from
`api_attributes = ['monitor', 'description', 'address', 'fqdn', 'session',
'state']`; `_filter_params` drops `None` entries, modelled by `Option`.  The
`fqdn` attribute dict is recorded by its `tmName`. -/
structure NodePayload where
  monitor : Option String := none
  description : Option String := none
  address : Option String := none
  fqdn : Option String := none
  session : Option String := none
  state : Option String := none
  deriving DecidableEq, Repr

/-- `self.want.api_params()`.  `state` is always populated (the argument spec
defaults it to `present` and munging overwrites it), so it is never filtered
out of the payload. -/
def api_params (w : NWant) : NodePayload :=
  { monitor := want_monitors_rendered w
    description := w.description
    address := w.address
    fqdn := w.fqdn
    session := w.session_val
    state := some w.state }

/-! ## Node module: ModuleManager (lines 491-707) -/

/-- Mutating REST calls issued by `bigip_node.py`.  `modifyChanges` is
`update_on_device` (its payload, `changes.api_params()`, is constrained by no
claim and is left unrecorded); `modify` is the literal payload of
`update_node_offline_on_device` (lines 666-669). -/
inductive NCall where
  | createNode (payload : NodePayload)
  | modifyChanges
  | modify (session state : String)
  | deleteNode
  deriving DecidableEq, Repr

/-- `ModuleManager._check_required_creation_vars` (lines 561-571). -/
def check_required_creation_vars (w : NWant) : Except String NWant :=
  match w.address, w.fqdn with
  | none, none => .error "At least one of 'address' or 'fqdn' is required when creating a node"
  | some _, some _ => .error "Only one of 'address' or 'fqdn' can be provided when creating a node"
  | none, some _ => .ok { w with address := some "any6" }
  | some _, none => .ok w

/-- `ModuleManager._munge_creation_state_for_device` (lines 573-603).  For
`offline` the source stores `state='user-down'` into `_values['state']` —
which `api_params` *does* transmit — and flags `is_offline` for the
post-create fixup. -/
def munge_creation_state (w : NWant) : NWant :=
  if w.state == "present" || w.state == "enabled" then
    { w with session_val := some "user-enabled", state := "user-up" }
  else if pySubstr w.state "disabled" then
    { w with session_val := some "user-disabled", state := "user-up" }
  else
    { w with session_val := some "user-disabled", state := "user-down", is_offline := true }

/-- `Difference.__default` (lines 413-420): report the desired value when it
differs from the observed one; a `none` report is treated as "no change" by
`_update_changed_options`. -/
def diff_default {α : Type} [DecidableEq α] (attr1 attr2 : Option α) : Option α :=
  if attr1 ≠ attr2 then attr1 else none

/-- `Difference.monitor_type` (lines 422-452), including its mutations of
`self.want`: inherit `monitor_type` and `quorum` from `have`, validate, and
rewrite an accepted `single` to `and_list` before the final comparison.
Returns the reported change and the mutated want. -/
def diff_monitor_type (w : NWant) (h : NHave) : Except String (Option String × NWant) :=
  let w1 := if w.monitor_type.isNone then { w with monitor_type := have_monitor_type h.monitors } else w
  let w2 := if w1.quorum.isNone then { w1 with quorum := have_quorum h } else w1
  if w2.monitor_type == some "m_of_n" && w2.quorum.isNone then
    .error "Quorum value must be specified with monitor_type 'm_of_n'."
  else if w2.monitor_type == some "single" then
    if (want_monitors_list w2.monitors).length > 1 then
      .error "When using a 'monitor_type' of 'single', only one monitor may be provided."
    else if (have_monitors_list h.monitors).length > 1 && (want_monitors_list w2.monitors).length == 0 then
      .error "A single monitor must be specified if more than one monitor currently exists on your pool."
    else
      let w3 := { w2 with monitor_type := some "and_list" }
      .ok (if w3.monitor_type ≠ have_monitor_type h.monitors then w3.monitor_type else none, w3)
  else
    .ok (if w2.monitor_type ≠ have_monitor_type h.monitors then w2.monitor_type else none, w2)

/-- `Difference.monitors` (lines 454-465).  When the desired monitor list is
empty the source assigns to the setter-less property `self.want.monitors`,
which raises `AttributeError`; `Difference.compare` catches it and falls back
to `Difference.__default` on the rendered values, so the emptiness
`F5ModuleError` on line 461 is unreachable on that path. -/
def diff_monitors (w : NWant) (h : NHave) : Except String (Option String × NWant) :=
  let w1 := if w.monitor_type.isNone then { w with monitor_type := have_monitor_type h.monitors } else w
  if (want_monitors_list w1.monitors).isEmpty then
    .ok (diff_default (want_monitors_rendered w1) h.monitors, w1)
  else
    let rendered := want_monitors_rendered w1
    if (rendered.isNone || rendered == some "") && !w1.monitor_type.isNone then
      .error "The 'monitors' parameter cannot be empty when 'monitor_type' parameter is specified"
    else
      .ok (if rendered ≠ h.monitors then rendered else none, w1)

/-- `Difference.state` (lines 467-488): map the desired lifecycle state to a
`(session, state)` pair and report it when the observed pair disagrees. -/
def diff_state (w : NWant) (h : NHave) : Option (String × String) :=
  if w.state == "present" || w.state == "enabled" then
    if h.session != "user-enabled" then some ("user-enabled", "user-up") else none
  else if w.state == "disabled" then
    if h.session != "user-disabled" || h.state == "user-down" then
      some ("user-disabled", "user-up")
    else none
  else if w.state == "offline" then
    if h.state != "user-down" then some ("user-disabled", "user-down") else none
  else none

/-- `ModuleManager._update_changed_options` (lines 506-522): run the five
`updatables` comparisons in order, threading the want mutations performed by
`Difference.monitor_type` and `Difference.monitors`, and report whether any
comparison produced a change. -/
def update_changed_options (w : NWant) (h : NHave) : Except String (Bool × NWant) :=
  match diff_monitor_type w h with
  | .error e => .error e
  | .ok (c1, w1) =>
    let c2 := diff_default w1.quorum (have_quorum h)
    match diff_monitors w1 h with
    | .error e => .error e
    | .ok (c3, w3) =>
      let c4 := diff_default w3.description h.description
      let c5 := diff_state w3 h
      .ok (c1.isSome || c2.isSome || c3.isSome || c4.isSome || c5.isSome, w3)

/-- `ModuleManager.update` (lines 626-635): read, compare, short-circuit in
check mode, otherwise modify — with an extra offline fixup when the desired
state (never munged on this path) is `offline`. -/
def nodeUpdate (w : NWant) (h : NHave) (check_mode : Bool) : Except String (Bool × List NCall) :=
  match update_changed_options w h with
  | .error e => .error e
  | .ok (changed, _) =>
    if !changed then .ok (false, [])
    else if check_mode then .ok (true, [])
    else
      .ok (true, [NCall.modifyChanges] ++
        (if w.state == "offline" then [NCall.modify "user-disabled" "user-down"] else []))

/-- `ModuleManager.create` (lines 605-618) against a well-behaved device: the
create succeeds (so the post-create `exists` check passes and
`_wait_for_fqdn_checks` only reads), and `is_offline` triggers the single
`update_node_offline_on_device` fixup. -/
def nodeCreate (w : NWant) (check_mode : Bool) : Except String (Bool × List NCall) :=
  match check_required_creation_vars w with
  | .error e => .error e
  | .ok w1 =>
    let w2 := munge_creation_state w1
    if check_mode then .ok (true, [])
    else
      .ok (true, [NCall.createNode (api_params w2)] ++
        (if w2.is_offline then [NCall.modify "user-disabled" "user-down"] else []))

/-- `ModuleManager.exec_module` (lines 536-648) for one pass against a device
that behaves (no concurrent actor): `device` is the node's observed state,
`none` when it does not exist; delete and create succeed, so the post-action
existence checks pass.  Racy deletions are modelled by `node_absent_pass`
below. -/
def nodeExec (w : NWant) (device : Option NHave) (check_mode : Bool) :
    Except String (Bool × List NCall) :=
  if w.state == "absent" then
    match device with
    | none => .ok (false, [])
    | some _ => if check_mode then .ok (true, []) else .ok (true, [NCall.deleteNode])
  else
    match device with
    | none => nodeCreate w check_mode
    | some h => nodeUpdate w h check_mode

/-- `ModuleManager.remove_from_device` (lines 701-707): `load` a missing node
raises a not-found HTTP error (spec section 6 read semantics) and `delete`
on a vanished node raises likewise; the method installs **no** handler, so
either failure propagates. -/
def node_remove_from_device (presentAtLoad deleteNotFound : Bool) : Except String (List NCall) :=
  if !presentAtLoad then .error "404 Not Found"
  else if deleteNotFound then .error "404 Not Found"
  else .ok [NCall.deleteNode]

/-- `ModuleManager.absent`/`remove` (lines 637-648) with the race window made
explicit: `exists1` is the initial existence check, `presentAtLoad` and
`deleteNotFound` describe the device when `remove_from_device` runs, and
`existsAfter` is the post-delete verification. -/
def node_absent_pass (exists1 presentAtLoad deleteNotFound existsAfter check_mode : Bool) :
    Except String (Bool × List NCall) :=
  if !exists1 then .ok (false, [])
  else if check_mode then .ok (true, [])
  else
    match node_remove_from_device presentAtLoad deleteNotFound with
    | .error e => .error e
    | .ok calls => if existsAfter then .error "Failed to delete the node." else .ok (true, calls)

/-! ## Virtual server module: main() absent branch and create wrapper -/

/-- The `state == 'absent'` branch of `main` (lines 736-751).  In check mode
the source sets `result = {'changed': True}` without consulting the device.
In a real run, a `vs_remove` failure whose text contains `was not found` is
swallowed with `changed=False` (lines 744-748); the failed SOAP call is still
recorded as having been issued. -/
def vsAbsentPass (check_mode exists1 removeNotFound : Bool) : Except String (Bool × List VSCall) :=
  if check_mode then .ok (true, [])
  else if !exists1 then .ok (false, [])
  else if removeNotFound then .ok (false, [VSCall.deleteVS])
  else .ok (true, [VSCall.deleteVS])

/-- `vs_create` (lines 209-236): despite the comment promising to do
"something smart" about a concurrent creation, the handler re-raises every
`OperationFailed` — including an "already exists" one — wrapped in
`Exception('Error on creating Virtual Server : ...')`, which `main` turns
into `fail_json`.  `deviceResult` is the outcome of the underlying SOAP
create call. -/
def vs_create_wrap (deviceResult : Except String Unit) : Except String (Bool × List VSCall) :=
  match deviceResult with
  | .ok _ => .ok (true, [VSCall.createVS])
  | .error e => .error ("Error on creating Virtual Server : " ++ e)

/-! ## Virtual server module: set_enabled_vlans (lines 371-415) -/

/-- The `get_vlan` result: the allow-list restriction state and the member
list the device reports. -/
structure VlanState where
  state : String
  vlans : List String
  deriving DecidableEq, Repr

/-- The source compares the device-reported state string with a literal using
Python `is` (object identity) on lines 388-389 and 396.  The string arriving
through the bigsuds SOAP layer is materialised by the XML parser and is never
the same object as the module's interned literal, so both identity tests are
always false. -/
def pyIsLit (_devStr _lit : String) : Bool :=
  false

/-- `set_enabled_vlans` (lines 371-415).  In the branch where the device
state `is "STATE_DISABLED"`, the source assigns `to_add_vlans` but never sets
`updated`, so the guarded `set_vlan` call cannot fire there. -/
def set_enabled_vlans (vlans_enabled_list : Option (List String)) (cur : VlanState) :
    Bool × List VSCall :=
  match vlans_enabled_list with
  | none => (false, [])
  | some l =>
    if l.contains "ALL" then
      if cur.vlans.length > 0 || pyIsLit cur.state "STATE_ENABLED" then
        (true, [VSCall.setVlan "STATE_DISABLED" []])
      else (false, [])
    else
      if pyIsLit cur.state "STATE_DISABLED" then
        (false, [])
      else if l.any (fun v => !(cur.vlans.contains v)) then
        (true, [VSCall.setVlan "STATE_ENABLED" l])
      else (false, [])

/-! ## Concrete states used by witnesses and counterexamples -/

/-- A caller asking only for an enabled node that already exists enabled. -/
def nodeWantPlain : NWant := {}

/-- An observed node with no monitors, enabled and up. -/
def nodeHavePlain : NHave := {}

/-- A caller creating a node whose desired lifecycle state is `offline`. -/
def nodeWantOffline : NWant :=
  { address := some "10.0.0.1", state := "offline" }

/-- A caller asking for `monitor_type=single` with two monitors. -/
def nodeWantSingleTwo : NWant :=
  { address := some "10.0.0.1", monitor_type := some "single",
    monitors := some ["/Common/icmp", "/Common/tcp"] }

/-- The rendered `m_of_n` expression for quorum 2 over icmp and tcp. -/
def mOfNSample : String := "min 2 of \x7b /Common/icmp /Common/tcp \x7d"

/-- The rendered `and_list` expression over icmp and tcp. -/
def andListSample : String := "/Common/icmp and /Common/tcp"

/-! ## Claims -/

/-- C1 counterexample: with desired profile list `[]` and observed profile
list `[]` both differences are empty, yet `set_profiles` does not report
unchanged — the post-pass re-read finds zero profiles and raises
`F5ModuleError` instead. -/
theorem C1_counterexample :
    to_add_profiles [] [] = [] ∧ to_del_profiles [] [] = [] ∧
    set_profiles (some []) [] = .error "Virtual servers must has at least one profile" :=
  ⟨rfl, rfl, rfl⟩

/-- C1 (amended): for every desired list `Ld` and observed list `Lo`, the
profile reconciliation computes `to_add = Ld - Lo` and
`to_remove = (Lo - Ld) - {/Common/tcp}` as set differences, never places the
protected `/Common/tcp` in `to_remove`, and when both differences are empty
it issues no mutating call and — provided the observed list is non-empty —
reports unchanged; the policies reconciliation obeys the same set-difference
contract without a protected member and reports unchanged whenever both
differences are empty. -/
theorem C1_list_diff_contract : ∀ (Ld Lo : List String),
    (∀ x, x ∈ to_add_profiles Ld Lo ↔ x ∈ Ld ∧ x ∉ Lo) ∧
    (∀ x, x ∈ to_del_profiles Ld Lo ↔ x ∈ Lo ∧ x ∉ Ld ∧ x ≠ "/Common/tcp") ∧
    "/Common/tcp" ∉ to_del_profiles Ld Lo ∧
    (to_add_profiles Ld Lo = [] → to_del_profiles Ld Lo = [] → Lo ≠ [] →
      set_profiles (some Ld) Lo = .ok (false, [], Lo)) ∧
    (∀ x, x ∈ to_add_policies Ld Lo ↔ x ∈ Ld ∧ x ∉ Lo) ∧
    (∀ x, x ∈ to_del_policies Ld Lo ↔ x ∈ Lo ∧ x ∉ Ld) ∧
    (to_add_policies Ld Lo = [] → to_del_policies Ld Lo = [] →
      set_policies (some Ld) Lo = (false, [])) := by
  intro Ld Lo
  refine ⟨?_, ?_, ?_, ?_, ?_, ?_, ?_⟩
  · intro x
    simp [to_add_profiles, List.mem_filter]
  · intro x
    simp [to_del_profiles, List.mem_filter, and_assoc]
  · simp [to_del_profiles, List.mem_filter]
  · intro h1 h2 h3
    have hsteps : set_profiles_steps Ld Lo = (false, [], Lo) := by
      simp [set_profiles_steps, h1, h2]
    simp [set_profiles, hsteps, h3]
  · intro x
    simp [to_add_policies, List.mem_filter]
  · intro x
    simp [to_del_policies, List.mem_filter]
  · intro h1 h2
    simp [set_policies, h1, h2]

/-- C1 witness: a managed profile list equal to the observed one produces no
call and reports unchanged. -/
theorem C1_witness :
    set_profiles (some ["/Common/tcp"]) ["/Common/tcp"] = .ok (false, [], ["/Common/tcp"]) :=
  (C1_list_diff_contract ["/Common/tcp"] ["/Common/tcp"]).2.2.2.1 rfl rfl (by decide)

/-- C2 counterexample: for `state=absent` against a device on which the
virtual server does not exist, a real run reports `changed=false` but a
check-mode run reports `changed=true`, so the two verdicts differ. -/
theorem C2_counterexample :
    vsAbsentPass false false false = .ok (false, []) ∧
    vsAbsentPass true false false = .ok (true, []) :=
  ⟨rfl, rfl⟩

/-- C2 (amended): the node module's check-mode pass returns the same
`changed` verdict as a successful real run against the same device state
while issuing no mutating call; the virtual-server module's `absent`-state
check-mode pass issues no call but reports `changed=true` unconditionally,
even when the resource does not exist and a real run would report
`changed=false`. -/
theorem C2_check_mode_verdicts :
    (∀ (w : NWant) (device : Option NHave) (changed : Bool) (calls : List NCall),
      nodeExec w device false = .ok (changed, calls) →
      nodeExec w device true = .ok (changed, [])) ∧
    (∀ e r : Bool, vsAbsentPass true e r = .ok (true, [])) := by
  constructor
  · intro w device changed calls h
    cases habs : (w.state == "absent") with
    | true =>
      cases device with
      | none =>
        simp [nodeExec, habs] at h ⊢
        exact h.1
      | some hv =>
        simp [nodeExec, habs] at h ⊢
        exact h.1
    | false =>
      cases device with
      | none =>
        simp only [nodeExec, habs] at h ⊢
        unfold nodeCreate at h ⊢
        cases hcv : check_required_creation_vars w with
        | error e =>
          simp [hcv] at h
        | ok w1 =>
          simp only [hcv] at h ⊢
          simp at h ⊢
          exact h.1
      | some hv =>
        simp only [nodeExec, habs] at h ⊢
        unfold nodeUpdate at h ⊢
        cases huc : update_changed_options w hv with
        | error e =>
          simp [huc] at h
        | ok p =>
          simp only [huc] at h ⊢
          cases hchg : p.1 with
          | false =>
            simp [hchg] at h ⊢
            exact h.1
          | true =>
            simp [hchg] at h ⊢
            exact h.1
  · intro e r
    rfl

/-- C2 witness: an all-default desired node against an enabled, up node with
no managed properties has an unchanged real run, and the check-mode run
returns the identical verdict with no call. -/
theorem C2_witness : nodeExec nodeWantPlain (some nodeHavePlain) true = .ok (false, []) :=
  C2_check_mode_verdicts.1 nodeWantPlain (some nodeHavePlain) false [] rfl

/-- C3: creating a node whose desired state is `offline` issues exactly two
mutations — one create and one fixup modify with `session=user-disabled`,
`state=user-down` — but the create payload itself carries `state=user-down`
(together with `session=user-disabled`), not the `user-up` of the disabled
pair: `_munge_creation_state_for_device` stores `user-down` into
`_values['state']`, which `api_params` transmits, contradicting the source's
own comment that `user-down` cannot be sent at creation time. -/
theorem C3_offline_creation :
    nodeExec nodeWantOffline none false =
      .ok (true,
        [NCall.createNode
          { address := some "10.0.0.1", session := some "user-disabled",
            state := some "user-down" },
         NCall.modify "user-disabled" "user-down"]) :=
  rfl

/-- C4 counterexample: a node deletion pass whose existence check returned
true but whose delete call then fails with a not-found signature propagates
the failure as a fatal error instead of reporting `changed=false`. -/
theorem C4_counterexample :
    node_absent_pass true true true false false = .error "404 Not Found" :=
  rfl

/-- C4 (amended): when the existence check returns true and the delete call
fails with a not-found signature, the virtual-server pass reports
`changed=false` with no fatal error, but the node pass — whose
`remove_from_device` installs no handler — propagates the failure as a fatal
error. -/
theorem C4_delete_race :
    vsAbsentPass false true true = .ok (false, [VSCall.deleteVS]) ∧
    (∀ existsAfter : Bool,
      node_absent_pass true true true existsAfter false = .error "404 Not Found") :=
  ⟨rfl, fun _ => rfl⟩

/-- C4 witness: the node-side divergence at a concrete post-delete existence
flag. -/
theorem C4_witness :
    node_absent_pass true true true true false = .error "404 Not Found" :=
  C4_delete_race.2 true

/-- C5: a creation attempt that fails because the object already exists is
not treated as success — `vs_create` wraps every `OperationFailed`,
including an "already exists" one, in a fatal
`Error on creating Virtual Server` exception. -/
theorem C5_create_race_fatal :
    vs_create_wrap (.error "The requested Virtual Server (/Common/vs1) already exists") =
      .error "Error on creating Virtual Server : The requested Virtual Server (/Common/vs1) already exists" :=
  rfl

/-- C6 counterexample: a node reconciliation that *creates* the node runs no
monitor validation — with `monitor_type=single` and two desired monitors the
pass issues a create mutation carrying both monitors and raises no error, so
the fatal-error guarantee does not hold for every reconciliation. -/
theorem C6_counterexample :
    nodeExec nodeWantSingleTwo none false =
      .ok (true, [NCall.createNode
        { monitor := some "/Common/icmp and /Common/tcp", address := some "10.0.0.1",
          session := some "user-enabled", state := some "user-up" }]) :=
  rfl

/-- C6 (amended): for every node reconciliation of an *existing* node (the
update path — creation performs no such validation) with desired
`monitor_type='single'`: more than one desired monitor raises a fatal
validation error before any device mutation; more than one monitor on the
device with an empty desired list raises a fatal validation error; and on
acceptance the want's `monitor_type` is rewritten to `and_list` before the
final comparison and rendering, so `single` never reaches the device. -/
theorem C6_single_monitor_validation :
    ∀ (w : NWant) (h : NHave) (cm : Bool), w.monitor_type = some "single" →
    ((want_monitors_list w.monitors).length > 1 →
      nodeUpdate w h cm =
        .error "When using a 'monitor_type' of 'single', only one monitor may be provided.") ∧
    ((have_monitors_list h.monitors).length > 1 → (want_monitors_list w.monitors).length = 0 →
      nodeUpdate w h cm =
        .error "A single monitor must be specified if more than one monitor currently exists on your pool.") ∧
    (¬ (want_monitors_list w.monitors).length > 1 →
     ¬ ((have_monitors_list h.monitors).length > 1 ∧ (want_monitors_list w.monitors).length = 0) →
      ∃ c w2, diff_monitor_type w h = .ok (c, w2) ∧ w2.monitor_type = some "and_list") := by
  intro w h cm hmt
  refine ⟨?_, ?_, ?_⟩
  · intro hlen
    have hd : diff_monitor_type w h =
        .error "When using a 'monitor_type' of 'single', only one monitor may be provided." := by
      cases hq : w.quorum.isNone with
      | true => simp [diff_monitor_type, hmt, hq, hlen]
      | false => simp [diff_monitor_type, hmt, hq, hlen]
    simp [nodeUpdate, update_changed_options, hd]
  · intro hhave hwant
    have hd : diff_monitor_type w h =
        .error "A single monitor must be specified if more than one monitor currently exists on your pool." := by
      cases hq : w.quorum.isNone with
      | true => simp [diff_monitor_type, hmt, hq, hhave, hwant]
      | false => simp [diff_monitor_type, hmt, hq, hhave, hwant]
    simp [nodeUpdate, update_changed_options, hd]
  · intro hn1 hn2
    cases hq : w.quorum.isNone with
    | true =>
      refine ⟨if (some "and_list" : Option String) ≠ have_monitor_type h.monitors then some "and_list" else none,
        { { w with quorum := have_quorum h } with monitor_type := some "and_list" }, ?_, rfl⟩
      simp [diff_monitor_type, hmt, hq, hn1, hn2]
      intro hh hw
      exact hn2 ⟨hh, by simp [hw]⟩
    | false =>
      refine ⟨if (some "and_list" : Option String) ≠ have_monitor_type h.monitors then some "and_list" else none,
        { w with monitor_type := some "and_list" }, ?_, rfl⟩
      simp [diff_monitor_type, hmt, hq, hn1, hn2]
      intro hh hw
      exact hn2 ⟨hh, by simp [hw]⟩

/-- C6 witness: asking for `single` with two monitors against an existing
node fails with the single-monitor validation error. -/
theorem C6_witness :
    nodeUpdate nodeWantSingleTwo {} false =
      .error "When using a 'monitor_type' of 'single', only one monitor may be provided." :=
  (C6_single_monitor_validation nodeWantSingleTwo {} false rfl).1 (by decide)

/-- C7: rendering the `m_of_n` expression for quorum 2 over the ordered list
[icmp, tcp] and parsing it back as a device-read node recovers
`monitor_type=m_of_n` and the ordered list, but the quorum comes back `None`
— `Parameters.quorum` parses the expression only under the pool kind, which
a node read never has (under the pool kind the same string does yield 2).
The `and_list` half of the round trip holds, with quorum undefined. -/
theorem C7_monitor_round_trip :
    render_monitors "Common" (some "m_of_n") (some 2) ["/Common/icmp", "/Common/tcp"]
      = mOfNSample ∧
    have_monitor_type (some mOfNSample) = some "m_of_n" ∧
    have_monitors_list (some mOfNSample) = ["/Common/icmp", "/Common/tcp"] ∧
    Parameters_quorum (some "tm:ltm:node:nodestate") (some mOfNSample) none = none ∧
    Parameters_quorum (some "tm:ltm:pool:poolstate") (some mOfNSample) none = some 2 ∧
    render_monitors "Common" (some "and_list") none ["/Common/icmp", "/Common/tcp"]
      = andListSample ∧
    have_monitor_type (some andListSample) = some "and_list" ∧
    have_monitors_list (some andListSample) = ["/Common/icmp", "/Common/tcp"] := by
  refine ⟨?_, ?_, ?_, ?_, ?_, ?_, ?_, ?_⟩ <;> decide

/-- C8 counterexample: with the wildcard desired and the restriction enabled
over an empty member list the code emits nothing (the identity test against
the literal never fires), and with the wildcard absent and the restriction
disabled an empty desired list emits nothing (the enabling branch never sets
`updated`): in both cases the claim demands a mutation. -/
theorem C8_counterexample :
    set_enabled_vlans (some ["ALL"]) ⟨"STATE_ENABLED", []⟩ = (false, []) ∧
    set_enabled_vlans (some []) ⟨"STATE_DISABLED", []⟩ = (false, []) :=
  ⟨rfl, rfl⟩

/-- C8 (amended): when the desired list contains `ALL`, exactly one
disable-restriction mutation is emitted iff the current VLAN member list is
non-empty (the restriction-enabled disjunct is an object-identity test that
never holds for a device-returned string); when the desired list omits
`ALL`, a single `STATE_ENABLED` mutation carrying the full desired list is
emitted iff some desired member is missing from the current list, regardless
of the current restriction state. -/
theorem C8_vlan_transitions :
    ∀ (l : List String) (cur : VlanState),
    ("ALL" ∈ l → cur.vlans ≠ [] →
       set_enabled_vlans (some l) cur = (true, [VSCall.setVlan "STATE_DISABLED" []])) ∧
    ("ALL" ∈ l → cur.vlans = [] →
       set_enabled_vlans (some l) cur = (false, [])) ∧
    ("ALL" ∉ l → (∃ v ∈ l, v ∉ cur.vlans) →
       set_enabled_vlans (some l) cur = (true, [VSCall.setVlan "STATE_ENABLED" l])) ∧
    ("ALL" ∉ l → (∀ v ∈ l, v ∈ cur.vlans) →
       set_enabled_vlans (some l) cur = (false, [])) := by
  intro l cur
  refine ⟨?_, ?_, ?_, ?_⟩
  · intro hall hne
    have hlen : 0 < cur.vlans.length := List.length_pos.mpr hne
    simp [set_enabled_vlans, pyIsLit, hall, hlen]
  · intro hall hnil
    simp [set_enabled_vlans, pyIsLit, hall, hnil]
  · intro hall hex
    simp [set_enabled_vlans, pyIsLit, hall, hex]
  · intro hall hsub
    have hnex : ¬ ∃ v ∈ l, v ∉ cur.vlans := by
      push_neg
      exact hsub
    simp [set_enabled_vlans, pyIsLit, hall, hnex]

/-- C8 witness: wildcard desired while members are listed yields the single
disable mutation. -/
theorem C8_witness :
    set_enabled_vlans (some ["ALL"]) ⟨"STATE_ENABLED", ["/Common/vlan1"]⟩ =
      (true, [VSCall.setVlan "STATE_DISABLED" []]) :=
  (C8_vlan_transitions ["ALL"] ⟨"STATE_ENABLED", ["/Common/vlan1"]⟩).1 (by decide) (by decide)

/-- C9: the chained comparison `0 > port > 65535` on line 729 is
unsatisfiable for every integer, so the port-range failure branch is
unreachable and no port value is rejected by this local validation. -/
theorem C9_port_check_unreachable : ∀ port : Int, port_range_check port = false := by
  intro port
  simp only [port_range_check, Bool.and_eq_false_iff, decide_eq_false_iff_not, not_lt]
  omega

/-- C9 witness: even 70000 — far out of range — is not rejected. -/
theorem C9_witness : port_range_check 70000 = false :=
  C9_port_check_unreachable 70000

/-- C10: whenever the profile reconciliation of a managed profile list
returns successfully, the re-read performed after its add/remove mutations
found at least one attached profile — an empty final list is turned into a
fatal `F5ModuleError` instead of a successful return. -/
theorem C10_profiles_nonempty : ∀ (Ld Lo : List String) (r : Bool × List VSCall × List String),
    set_profiles (some Ld) Lo = .ok r → r.2.2 ≠ [] := by
  intro Ld Lo r h
  simp only [set_profiles] at h
  by_cases hz : ((set_profiles_steps Ld Lo).2.2.length == 0) = true
  · rw [if_pos hz] at h
    cases h
  · rw [if_neg hz] at h
    cases h
    intro hnil
    exact hz (by simp [hnil])

/-- C10 witness: adding http to a server carrying only tcp succeeds and the
final profile list is non-empty. -/
theorem C10_witness :
    ((true, [VSCall.addProfile ["/Common/http"]],
      ["/Common/tcp", "/Common/http"]) : Bool × List VSCall × List String).2.2 ≠ [] :=
  C10_profiles_nonempty ["/Common/http"] ["/Common/tcp"] _ rfl

end F5
